import Mathlib

/-!
Verification of the movie_management repository's ownership-scoped CRUD model.

The data model is translated from `movies/models.py`, the view functions from
`movies/views.py` and `movie_management/views.py`.  The actual CRUD data
operations (list/create/update/confirmed-delete) are performed by an API layer
that is not part of the given source; where a claim depends on them they are
modelled from the spec and marked as such in their doc comments.
-/

/-- A Django auth User (`django.contrib.auth.models.User`): unique username,
email, password (hashing is external to this system). -/
structure User where
  id : Nat
  username : String
  email : String
  password : String
deriving DecidableEq, Repr

/-- The `created_by` field of a saved Movie is a required ForeignKey to User
(`models.py` line 10).  The unsaved dummy object built in `movie_delete`'s
fallback branch carries `AnonymousUser()` instead, so the owner slot is a sum. -/
inductive Owner where
  | user (id : Nat)
  | anonymous
deriving DecidableEq, Repr

/-- The Movie model from `movies/models.py`: title, description (may be blank),
release_date, genre, optional poster, required created_by. -/
structure Movie where
  id : Nat
  title : String
  description : String
  release_date : String
  genre : String
  poster : Option String
  created_by : Owner
deriving DecidableEq, Repr

/-- Exceptions relevant to the views: `django.http.Http404` (raised by
`get_object_or_404`) and `Movie.DoesNotExist` (the class named in the
`except` clauses).  In Django, `Http404` is not a subclass of
`Movie.DoesNotExist`, so an `except Movie.DoesNotExist` clause does not
catch it. -/
inductive Exc where
  | http404
  | doesNotExist
deriving DecidableEq, Repr

/-- The caller-visible outcome of a view: a rendered template with its
context, or the login_required redirect. -/
inductive ViewResult where
  /-- Template `movies/movie_form.html` with a `MovieForm`; `some m` is
  `MovieForm(instance=m)`, `none` is the empty `MovieForm()`. -/
  | renderForm (formInstance : Option Movie)
  /-- Template `movies/movie_confirm_delete.html` with `object`. -/
  | renderConfirm (object : Movie)
  /-- Template `movies/movie_list.html` with the current user's id and username. -/
  | renderList (current_user_id : Nat) (current_username : String)
  /-- The redirect issued by `@login_required` for an unauthenticated request. -/
  | authRequired
deriving DecidableEq, Repr

/-- Django's `get_object_or_404(Movie, pk=pk)`: returns the first
record with the given pk, or raises `Http404` (not `Movie.DoesNotExist`). -/
def get_object_or_404 (movies : List Movie) (pk : Nat) : Except Exc Movie :=
  match movies.find? (fun m => m.id == pk) with
  | some m => .ok m
  | none => .error .http404

/-- View `movie_list` (`movies/views.py` lines 7-14): `@login_required`; renders the
list template with the current user's id and username only — the movie data
itself comes from the API layer. -/
def movie_list (caller : Option User) : Except Exc ViewResult :=
  match caller with
  | none => .ok .authRequired
  | some u => .ok (.renderList u.id u.username)

/-- View `movie_create` (`movies/views.py` lines 16-20): no `@login_required`
decorator; renders an empty `MovieForm` for any caller, authenticated or not. -/
def movie_create (caller : Option User) : Except Exc ViewResult :=
  match caller with
  | none => .ok (.renderForm none)
  | some _ => .ok (.renderForm none)

/-- View `movie_update` (`movies/views.py` lines 22-33), instrumented with a Bool
recording whether the `except Movie.DoesNotExist` fallback branch executed.
The try block runs `get_object_or_404` then builds `MovieForm(instance=movie)`;
the except clause catches only `Movie.DoesNotExist` and builds an empty form. -/
def movie_update_instr (caller : Option User) (movies : List Movie) (pk : Nat) :
    Except Exc ViewResult × Bool :=
  match caller with
  | none => (.ok .authRequired, false)
  | some _ =>
    match get_object_or_404 movies pk with
    | .ok m => (.ok (.renderForm (some m)), false)
    | .error e =>
      if e == .doesNotExist then (.ok (.renderForm none), true)
      else (.error e, false)

/-- The caller-visible behaviour of `movie_update`. -/
def movie_update (caller : Option User) (movies : List Movie) (pk : Nat) :
    Except Exc ViewResult :=
  (movie_update_instr caller movies pk).1

/-- The unsaved dummy object built in `movie_delete`'s fallback:
`Movie(id=pk, title="Movie", created_by=AnonymousUser())`; the remaining
fields keep the model's unsaved defaults. -/
def dummyMovie (pk : Nat) : Movie :=
  { id := pk, title := "Movie", description := "", release_date := "",
    genre := "", poster := none, created_by := .anonymous }

/-- View `movie_delete` (`movies/views.py` lines 35-46), instrumented with a Bool
recording whether the `except Movie.DoesNotExist` fallback branch executed.
The try block runs `get_object_or_404`; the except clause catches only
`Movie.DoesNotExist` and substitutes the dummy anonymous-owned object. -/
def movie_delete_instr (caller : Option User) (movies : List Movie) (pk : Nat) :
    Except Exc ViewResult × Bool :=
  match caller with
  | none => (.ok .authRequired, false)
  | some _ =>
    match get_object_or_404 movies pk with
    | .ok m => (.ok (.renderConfirm m), false)
    | .error e =>
      if e == .doesNotExist then (.ok (.renderConfirm (dummyMovie pk)), true)
      else (.error e, false)

/-- The caller-visible behaviour of `movie_delete`. -/
def movie_delete (caller : Option User) (movies : List Movie) (pk : Nat) :
    Except Exc ViewResult :=
  (movie_delete_instr caller movies pk).1

/-- Outcome of the `register` view: re-render with the duplicate-username
error, or redirect to the login page on success. -/
inductive RegisterResult where
  | errorExists
  | redirectLogin
deriving DecidableEq, Repr

/-- View `register` (`movie_management/views.py` lines 25-34), POST branch: if a
user with the requested username exists, re-render with the error and leave
the user table untouched; otherwise create the user (fresh auto pk) and
redirect to login. -/
def register (users : List User) (username email password : String) :
    RegisterResult × List User :=
  if users.any (fun u => u.username == username) then
    (.errorExists, users)
  else
    (.redirectLogin,
      users ++ [{ id := (users.map (·.id)).foldr max 0 + 1,
                  username := username, email := email, password := password }])

/-- Cascade semantics of `on_delete=models.CASCADE` on `Movie.created_by` (`models.py` line 10):
deleting a User deletes every Movie whose created_by references that user. -/
def delete_user (users : List User) (movies : List Movie) (uid : Nat) :
    List User × List Movie :=
  (users.filter (fun u => !(u.id == uid)),
   movies.filter (fun m => !(m.created_by == Owner.user uid)))

/-! ## Spec-modelled API layer

The views above only serve templates; the comments in `movies/views.py` say
the CRUD data operations are performed by an API layer whose source is not
part of the repository snapshot.  The definitions below model that layer from
the spec (section 4.1), as the spec-mandated ownership-scoped CRUD service. -/

/-- Error taxonomy of the spec (section 7) for the CRUD service. -/
inductive ApiError where
  | authenticationRequired
  | notFound
  | validationFailed
deriving DecidableEq, Repr

/-- The mutable field set of a Movie as accepted by create/update; the owner
is not part of it (spec: owner field is never accepted as mutable input). -/
structure MovieFields where
  title : String
  description : String
  release_date : String
  genre : String
  poster : Option String
deriving DecidableEq, Repr

/-- The required-field constraints declared in `movies/models.py`: title,
release_date and genre are required; description may be blank; poster is
optional. -/
def validFields (f : MovieFields) : Bool :=
  !(f.title == "") && !(f.release_date == "") && !(f.genre == "")

/-- Extract a Movie's mutable fields. -/
def fieldsOf (m : Movie) : MovieFields :=
  { title := m.title, description := m.description,
    release_date := m.release_date, genre := m.genre, poster := m.poster }

/-- Overwrite a Movie's mutable fields in place, owner and id untouched. -/
def applyFields (m : Movie) (f : MovieFields) : Movie :=
  { m with title := f.title, description := f.description,
           release_date := f.release_date, genre := f.genre,
           poster := f.poster }

/-- The movie record store: records keyed by an auto-incremented pk that is
never reused (Django auto pk semantics). -/
structure Store where
  movies : List Movie
  nextMovieId : Nat
deriving DecidableEq, Repr

/-- Store well-formedness: pks are distinct and below the auto-pk counter. -/
def StoreWF (s : Store) : Prop :=
  (s.movies.map (·.id)).Nodup ∧ ∀ m ∈ s.movies, m.id < s.nextMovieId

/-- Modelled from the spec: `list(caller)` of the API layer (absent from the
source snapshot) returns the set of Movie records whose owner equals the
caller's identity; unauthenticated callers fail with AuthenticationRequired. -/
def api_list (caller : Option User) (s : Store) : Except ApiError (List Movie) :=
  match caller with
  | none => .error .authenticationRequired
  | some u => .ok (s.movies.filter (fun m => m.created_by == Owner.user u.id))

/-- Modelled from the spec: `create(caller, fields)` of the API layer (absent
from the source snapshot) validates the fields, then persists a new Movie with
owner = caller under a fresh id and returns the id with the new store. -/
def api_create (caller : Option User) (s : Store) (f : MovieFields) :
    Except ApiError (Store × Nat) :=
  match caller with
  | none => .error .authenticationRequired
  | some u =>
    if validFields f then
      .ok ({ movies := s.movies ++
               [{ id := s.nextMovieId, title := f.title,
                  description := f.description, release_date := f.release_date,
                  genre := f.genre, poster := f.poster,
                  created_by := .user u.id }],
             nextMovieId := s.nextMovieId + 1 }, s.nextMovieId)
    else .error .validationFailed

/-- Modelled from the spec: `read_for_edit(caller, movie_id)` of the API layer
(absent from the source snapshot) fetches the Movie and fails with NotFound if
no such id exists or if it exists but the owner is not the caller. -/
def api_read_for_edit (caller : Option User) (s : Store) (mid : Nat) :
    Except ApiError Movie :=
  match caller with
  | none => .error .authenticationRequired
  | some u =>
    match s.movies.find? (fun m => m.id == mid) with
    | none => .error .notFound
    | some m =>
      if m.created_by == Owner.user u.id then .ok m else .error .notFound

/-- Modelled from the spec: `update(caller, movie_id, fields)` of the API
layer (absent from the source snapshot): same ownership check as
read_for_edit, same validation as create, then overwrites the mutable fields
in place, owner untouched. -/
def api_update (caller : Option User) (s : Store) (mid : Nat) (f : MovieFields) :
    Except ApiError Store :=
  match caller with
  | none => .error .authenticationRequired
  | some u =>
    match s.movies.find? (fun m => m.id == mid) with
    | none => .error .notFound
    | some m =>
      if m.created_by == Owner.user u.id then
        if validFields f then
          .ok { s with movies :=
            s.movies.map (fun m' => if m'.id == mid then applyFields m' f else m') }
        else .error .validationFailed
      else .error .notFound

/-- Modelled from the spec: the confirmed `delete(caller, movie_id)` of the
API layer (absent from the source snapshot): same ownership check, then the
record is removed from the store. -/
def api_delete_confirmed (caller : Option User) (s : Store) (mid : Nat) :
    Except ApiError Store :=
  match caller with
  | none => .error .authenticationRequired
  | some u =>
    match s.movies.find? (fun m => m.id == mid) with
    | none => .error .notFound
    | some m =>
      if m.created_by == Owner.user u.id then
        .ok { s with movies := s.movies.filter (fun m' => !(m'.id == mid)) }
      else .error .notFound

/-! ## State machine on movie records -/

/-- The two states of a Movie record (spec section 4.1). -/
inductive MState where
  | active
  | deleted
deriving DecidableEq, Repr

/-- The state of the record with the given pk: Active while stored; Deleted
once removed (a pk below the auto counter was allocated at some point and,
since pks are never reused, its absence means deletion); `none` for a pk that
never existed. -/
def recordState (s : Store) (mid : Nat) : Option MState :=
  if s.movies.any (fun m => m.id == mid) then some .active
  else if mid < s.nextMovieId then some .deleted
  else none

/-- One request against the system: the template-serving views together with
the spec-modelled API operations.  `deleteFetch` is the unconfirmed delete
request (the initial fetch of the confirmation page, i.e. the `movie_delete`
view); `deleteConfirmed` is the distinct confirmed delete call. -/
inductive Op where
  | listOp (caller : Option User)
  | createOp (caller : Option User) (f : MovieFields)
  | readForEdit (caller : Option User) (mid : Nat)
  | updateOp (caller : Option User) (mid : Nat) (f : MovieFields)
  | deleteFetch (caller : Option User) (mid : Nat)
  | deleteConfirmed (caller : Option User) (mid : Nat)
deriving Repr

/-- The store after a request: the views and the read operations never write;
create/update/confirmed-delete write on success and leave the store unchanged
on any error. -/
def stepStore (s : Store) : Op → Store
  | .listOp _ => s
  | .createOp caller f =>
    match api_create caller s f with
    | .ok (s', _) => s'
    | .error _ => s
  | .readForEdit _ _ => s
  | .updateOp caller mid f =>
    match api_update caller s mid f with
    | .ok s' => s'
    | .error _ => s
  | .deleteFetch _ _ => s
  | .deleteConfirmed caller mid =>
    match api_delete_confirmed caller s mid with
    | .ok s' => s'
    | .error _ => s

/-! ## Helper lemmas and sample data -/

/-- Sample user 1. -/
def alice : User := { id := 1, username := "alice", email := "alice@example.com", password := "pw1" }

/-- Sample user 2, distinct from alice. -/
def bob : User := { id := 2, username := "bob", email := "bob@example.com", password := "pw2" }

/-- Sample movie owned by alice. -/
def duneMovie : Movie :=
  { id := 5, title := "Dune", description := "", release_date := "2021-10-22",
    genre := "Sci-Fi", poster := none, created_by := .user 1 }

instance : DecidableEq (Except Exc ViewResult) := fun a b =>
  match a, b with
  | .ok x, .ok y => if h : x = y then .isTrue (by rw [h]) else .isFalse (by
      intro hco
      exact h (Except.ok.inj hco))
  | .error x, .error y => if h : x = y then .isTrue (by rw [h]) else .isFalse (by
      intro hco
      exact h (Except.error.inj hco))
  | .ok _, .error _ => .isFalse (fun hco => Except.noConfusion hco)
  | .error _, .ok _ => .isFalse (fun hco => Except.noConfusion hco)

lemma get_object_or_404_never_doesNotExist (movies : List Movie) (pk : Nat) (e : Exc)
    (h : get_object_or_404 movies pk = .error e) : e = .http404 := by
  unfold get_object_or_404 at h
  cases hf : movies.find? (fun m => m.id == pk) <;> rw [hf] at h
  · simpa using h.symm
  · cases h

lemma get_object_or_404_of_none (movies : List Movie) (pk : Nat)
    (h : movies.find? (fun m => m.id == pk) = none) :
    get_object_or_404 movies pk = .error .http404 := by
  unfold get_object_or_404
  rw [h]

lemma movie_update_instr_fallback_false (caller : Option User) (movies : List Movie)
    (pk : Nat) : (movie_update_instr caller movies pk).2 = false := by
  unfold movie_update_instr
  cases caller with
  | none => rfl
  | some u =>
    cases hg : get_object_or_404 movies pk with
    | ok m => rfl
    | error e =>
      have := get_object_or_404_never_doesNotExist movies pk e hg
      subst this
      rfl

lemma movie_delete_instr_fallback_false (caller : Option User) (movies : List Movie)
    (pk : Nat) : (movie_delete_instr caller movies pk).2 = false := by
  unfold movie_delete_instr
  cases caller with
  | none => rfl
  | some u =>
    cases hg : get_object_or_404 movies pk with
    | ok m => rfl
    | error e =>
      have := get_object_or_404_never_doesNotExist movies pk e hg
      subst this
      rfl

/-! ## Claims -/

/-- C1: the claim says `read_for_edit(U2, m.id)` and `delete-confirm(U2, m.id)`
on a Movie m owned by U1 ≠ U2 both fail with NotFound and never render U1's
record.  The code violates this: with alice's movie in the store, bob's
requests to the update and delete views render alice's record. -/
theorem C1_views_render_foreign_record :
    movie_update (some bob) [duneMovie] 5 = .ok (.renderForm (some duneMovie)) ∧
    movie_delete (some bob) [duneMovie] 5 = .ok (.renderConfirm duneMovie) ∧
    movie_update (some bob) [duneMovie] 5 ≠ .error .http404 ∧
    movie_delete (some bob) [duneMovie] 5 ≠ .error .http404 := by
  refine ⟨rfl, rfl, ?_, ?_⟩ <;> decide

/-- C3: the claim says that for a missing target id the later-revision views
render a dummy anonymous-owned record (delete) or an empty form (update).
The code's fallback branches are dead: a missing id yields Http404 and the
fallback flag never fires, so no dummy record or empty form is rendered. -/
theorem C3_missing_id_yields_404_not_dummy :
    movie_update (some bob) [] 7 = .error .http404 ∧
    movie_delete (some bob) [] 7 = .error .http404 ∧
    (movie_update_instr (some bob) [] 7).2 = false ∧
    (movie_delete_instr (some bob) [] 7).2 = false ∧
    movie_delete (some bob) [] 7 ≠ .ok (.renderConfirm (dummyMovie 7)) ∧
    movie_update (some bob) [] 7 ≠ .ok (.renderForm none) := by
  refine ⟨rfl, rfl, rfl, rfl, ?_, ?_⟩ <;> decide

/-- C4: the claim says every CRUD view rejects an unauthenticated request with
AuthenticationRequired.  The code violates this for `movie_create`, which has
no `login_required` decorator and renders the creation form to an
unauthenticated caller; the other three views do reject. -/
theorem C4_create_view_skips_authentication :
    movie_create none = .ok (.renderForm none) ∧
    movie_create none ≠ .ok .authRequired ∧
    movie_list none = .ok .authRequired ∧
    movie_update none [duneMovie] 5 = .ok .authRequired ∧
    movie_delete none [duneMovie] 5 = .ok .authRequired := by
  refine ⟨rfl, ?_, rfl, rfl, rfl⟩
  decide

/-- C6: the claim says a request for a missing id and a request for an id
owned by another user produce identical NotFound responses.  The code
violates this: bob's request for alice's movie (id 5) renders the record,
while a missing id (99) yields Http404 — the two are distinguishable, and
the foreign-owner case even succeeds. -/
theorem C6_foreign_vs_missing_distinguishable :
    movie_update (some bob) [duneMovie] 5 = .ok (.renderForm (some duneMovie)) ∧
    movie_update (some bob) [duneMovie] 99 = .error .http404 ∧
    movie_delete (some bob) [duneMovie] 5 = .ok (.renderConfirm duneMovie) ∧
    movie_delete (some bob) [duneMovie] 99 = .error .http404 ∧
    (Except.ok (.renderForm (some duneMovie)) : Except Exc ViewResult) ≠ .error .http404 ∧
    (Except.ok (.renderConfirm duneMovie) : Except Exc ViewResult) ≠ .error .http404 := by
  refine ⟨rfl, rfl, rfl, rfl, ?_, ?_⟩ <;> decide

/-- C8: registration with an already-used username returns the duplicate
error and leaves the user table exactly as it was: no user is created and
every stored user's fields are unchanged. -/
theorem C8_register_duplicate_identity (users : List User) (uname email pw : String)
    (h : users.any (fun u => u.username == uname) = true) :
    register users uname email pw = (.errorExists, users) := by
  unfold register
  rw [h]
  rfl

/-- Witness for C8 at a concrete input. -/
theorem C8_register_duplicate_identity_witness :
    ([alice].any (fun u => u.username == "alice") = true) ∧
    register [alice] "alice" "x@example.com" "otherpw" = (.errorExists, [alice]) :=
  ⟨by decide, C8_register_duplicate_identity [alice] "alice" "x@example.com" "otherpw" (by decide)⟩

/-- C9: deleting a User cascades: afterwards no Movie owned by that user
remains, every Movie owned by someone else is kept, and nothing new appears. -/
theorem C9_user_delete_cascades (users : List User) (movies : List Movie) (uid : Nat) :
    (∀ m ∈ (delete_user users movies uid).2, m.created_by ≠ Owner.user uid) ∧
    (∀ m ∈ movies, m.created_by ≠ Owner.user uid → m ∈ (delete_user users movies uid).2) ∧
    (∀ m ∈ (delete_user users movies uid).2, m ∈ movies) := by
  unfold delete_user
  refine ⟨?_, ?_, ?_⟩
  · intro m hm
    have h := (List.mem_filter.mp hm).2
    simpa using h
  · intro m hm hne
    exact List.mem_filter.mpr ⟨hm, by simpa using hne⟩
  · intro m hm
    exact (List.mem_filter.mp hm).1

/-- Witness for C9 at a concrete input. -/
theorem C9_user_delete_cascades_witness :
    (∀ m ∈ (delete_user [alice, bob] [duneMovie] 1).2, m.created_by ≠ Owner.user 1) ∧
    (duneMovie ∈ [duneMovie] ∧ duneMovie.created_by ≠ Owner.user 2 ∧
      duneMovie ∈ (delete_user [alice, bob] [duneMovie] 2).2) :=
  ⟨(C9_user_delete_cascades [alice, bob] [duneMovie] 1).1,
   by decide, by decide,
   (C9_user_delete_cascades [alice, bob] [duneMovie] 2).2.1 duneMovie (by decide) (by decide)⟩

/-- C10: the `except Movie.DoesNotExist` fallback branches in `movie_update`
and `movie_delete` never execute (for any caller, store and pk), and a
request for a missing id by an authenticated caller always yields Http404. -/
theorem C10_fallback_branches_unreachable (caller : Option User) (movies : List Movie)
    (pk : Nat) :
    (movie_update_instr caller movies pk).2 = false ∧
    (movie_delete_instr caller movies pk).2 = false ∧
    (movies.find? (fun m => m.id == pk) = none →
      ∀ u : User, movie_update (some u) movies pk = .error .http404 ∧
                  movie_delete (some u) movies pk = .error .http404) := by
  refine ⟨movie_update_instr_fallback_false caller movies pk,
          movie_delete_instr_fallback_false caller movies pk, ?_⟩
  intro hnone u
  have hg := get_object_or_404_of_none movies pk hnone
  constructor
  · unfold movie_update movie_update_instr
    rw [hg]
    rfl
  · unfold movie_delete movie_delete_instr
    rw [hg]
    rfl

/-- Witness for C10 at a concrete input. -/
theorem C10_fallback_branches_unreachable_witness :
    (movie_update_instr (some bob) [duneMovie] 9 ).2 = false ∧
    (([duneMovie] : List Movie).find? (fun m => m.id == 9) = none ∧
      movie_update (some bob) [duneMovie] 9 = .error .http404 ∧
      movie_delete (some bob) [duneMovie] 9 = .error .http404) := by
  have h := C10_fallback_branches_unreachable (some bob) [duneMovie] 9
  have h3 := h.2.2 (by decide) bob
  exact ⟨h.1, by decide, h3.1, h3.2⟩

/-- C2: the list template view rejects unauthenticated callers, and the
spec-modelled API list operation rejects unauthenticated callers with
AuthenticationRequired and returns, for an authenticated caller, exactly the
movies whose owner is the caller. -/
theorem C2_list_owner_scoped (s : Store) :
    movie_list none = .ok .authRequired ∧
    api_list none s = .error .authenticationRequired ∧
    ∀ u : User, ∃ l : List Movie, api_list (some u) s = .ok l ∧
      ∀ m : Movie, m ∈ l ↔ (m ∈ s.movies ∧ m.created_by = Owner.user u.id) := by
  refine ⟨rfl, rfl, fun u => ⟨_, rfl, fun m => ?_⟩⟩
  simp [List.mem_filter]

/-- Witness for C2 at a concrete input. -/
theorem C2_list_owner_scoped_witness :
    api_list none ⟨[duneMovie], 6⟩ = .error .authenticationRequired ∧
    (duneMovie ∈ ([duneMovie] : List Movie) ∧ duneMovie.created_by = Owner.user 1) := by
  have h := C2_list_owner_scoped ⟨[duneMovie], 6⟩
  exact ⟨h.2.1, by decide, by decide⟩

/-! ## Lemmas about the spec-modelled store operations -/

lemma applyFields_id (m : Movie) (f : MovieFields) : (applyFields m f).id = m.id := rfl

lemma applyFields_created_by (m : Movie) (f : MovieFields) :
    (applyFields m f).created_by = m.created_by := rfl

@[simp] lemma update_one_id (m' : Movie) (mid : Nat) (f : MovieFields) :
    (if m'.id == mid then applyFields m' f else m').id = m'.id := by
  by_cases h : (m'.id == mid) = true <;> simp [h, applyFields]

@[simp] lemma update_one_created_by (m' : Movie) (mid : Nat) (f : MovieFields) :
    (if m'.id == mid then applyFields m' f else m').created_by = m'.created_by := by
  by_cases h : (m'.id == mid) = true <;> simp [h, applyFields]

lemma find_by_id_eq (movies : List Movie) (m : Movie)
    (hn : (movies.map (·.id)).Nodup) (hm : m ∈ movies) :
    movies.find? (fun m' => m'.id == m.id) = some m := by
  induction movies with
  | nil => cases hm
  | cons a tl ih =>
    rw [List.map_cons, List.nodup_cons] at hn
    rcases List.mem_cons.mp hm with rfl | hmem
    · exact List.find?_cons_of_pos _ (by simp)
    · have hne : ¬ ((a.id == m.id) = true) := by
        simp only [beq_iff_eq]
        intro hcontra
        exact hn.1 (hcontra.symm ▸ List.mem_map_of_mem (·.id) hmem)
      rw [List.find?_cons_of_neg (p := fun m' : Movie => m'.id == m.id) tl hne]
      exact ih hn.2 hmem

lemma find_map_update (movies : List Movie) (mid : Nat) (f : MovieFields) :
    (movies.map (fun m' => if m'.id == mid then applyFields m' f else m')).find?
        (fun m' => m'.id == mid)
      = (movies.find? (fun m' => m'.id == mid)).map (fun m' => applyFields m' f) := by
  induction movies with
  | nil => rfl
  | cons a tl ih =>
    by_cases h : (a.id == mid) = true
    · rw [List.map_cons, if_pos h]
      rw [List.find?_cons_of_pos (p := fun m' : Movie => m'.id == mid) _
            (by simpa [applyFields_id] using h),
          List.find?_cons_of_pos (p := fun m' : Movie => m'.id == mid) _ h]
      rfl
    · rw [List.map_cons, if_neg h]
      rw [List.find?_cons_of_neg (p := fun m' : Movie => m'.id == mid) _ h,
          List.find?_cons_of_neg (p := fun m' : Movie => m'.id == mid) _ h]
      exact ih

/-- C7: the owner is set at creation and never changed: after an owner's
update with fields f, a read_for_edit returns the record carrying exactly the
fields f with the owner unchanged; the field set accepted by update
(`MovieFields`) does not contain the owner, and every record in the updated
store keeps its id and owner. -/
theorem C7_owner_immutable (s : Store) (u : User) (m : Movie) (f : MovieFields)
    (hwf : StoreWF s) (hm : m ∈ s.movies) (hown : m.created_by = Owner.user u.id)
    (hv : validFields f = true) :
    ∃ s' : Store, api_update (some u) s m.id f = .ok s' ∧
      api_read_for_edit (some u) s' m.id = .ok (applyFields m f) ∧
      (applyFields m f).created_by = m.created_by ∧
      fieldsOf (applyFields m f) = f ∧
      ∀ m' ∈ s'.movies, ∃ m₀ ∈ s.movies, m'.id = m₀.id ∧ m'.created_by = m₀.created_by := by
  have hfind := find_by_id_eq s.movies m hwf.1 hm
  have hbown : (m.created_by == Owner.user u.id) = true := by simp [hown]
  refine ⟨{ s with movies := s.movies.map (fun m' => if m'.id == m.id then applyFields m' f else m') }, ?_, ?_, rfl, ?_, ?_⟩
  · unfold api_update
    rw [hfind]
    simp [hbown, hv]
  · unfold api_read_for_edit
    rw [find_map_update s.movies m.id f, hfind]
    simp [applyFields_created_by, hbown]
  · cases f
    rfl
  · intro m' hm'
    rcases List.mem_map.mp hm' with ⟨m₀, hm₀, rfl⟩
    exact ⟨m₀, hm₀, update_one_id m₀ m.id f, update_one_created_by m₀ m.id f⟩

/-- A concrete field set used by the witnesses. -/
def newFields : MovieFields :=
  { title := "Dune Part Two", description := "sequel", release_date := "2024-03-01",
    genre := "Sci-Fi", poster := none }

/-- Witness for C7 at a concrete input. -/
theorem C7_owner_immutable_witness :
    StoreWF ⟨[duneMovie], 6⟩ ∧ duneMovie ∈ (⟨[duneMovie], 6⟩ : Store).movies ∧
    duneMovie.created_by = Owner.user alice.id ∧ validFields newFields = true ∧
    (∃ s' : Store, api_update (some alice) ⟨[duneMovie], 6⟩ duneMovie.id newFields = .ok s' ∧
      api_read_for_edit (some alice) s' duneMovie.id = .ok (applyFields duneMovie newFields) ∧
      (applyFields duneMovie newFields).created_by = duneMovie.created_by ∧
      fieldsOf (applyFields duneMovie newFields) = newFields ∧
      ∀ m' ∈ s'.movies, ∃ m₀ ∈ (⟨[duneMovie], 6⟩ : Store).movies,
        m'.id = m₀.id ∧ m'.created_by = m₀.created_by) :=
  ⟨by constructor <;> decide, by decide, by decide, by decide,
   C7_owner_immutable ⟨[duneMovie], 6⟩ alice duneMovie newFields
     (by constructor <;> decide) (by decide) (by decide) (by decide)⟩

/-! ## State-machine lemmas -/

lemma recordState_def (s : Store) (mid : Nat) :
    recordState s mid =
      if s.movies.any (fun m' => m'.id == mid) then some .active
      else if mid < s.nextMovieId then some .deleted else none := rfl

lemma any_id_map_update (movies : List Movie) (mid mid' : Nat) (f : MovieFields) :
    (movies.map (fun m' => if m'.id == mid' then applyFields m' f else m')).any
        (fun m' => m'.id == mid)
      = movies.any (fun m' => m'.id == mid) := by
  induction movies with
  | nil => rfl
  | cons a tl ih =>
    rw [List.map_cons, List.any_cons, List.any_cons, ih, update_one_id]

lemma any_id_filter_self (movies : List Movie) (mid' : Nat) :
    (movies.filter (fun m' => !(m'.id == mid'))).any (fun m' => m'.id == mid') = false := by
  rw [List.any_eq_false]
  intro m hm
  have h2 := (List.mem_filter.mp hm).2
  simp only [Bool.not_eq_true'] at h2
  simp [h2]

lemma any_id_filter_ne (movies : List Movie) (mid mid' : Nat) (h : mid ≠ mid') :
    (movies.filter (fun m' => !(m'.id == mid'))).any (fun m' => m'.id == mid)
      = movies.any (fun m' => m'.id == mid) := by
  induction movies with
  | nil => rfl
  | cons a tl ih =>
    by_cases ha : a.id = mid'
    · have h2 : (a.id == mid) = false := by
        rw [beq_eq_false_iff_ne, ha]
        exact fun hc => h hc.symm
      rw [List.filter_cons_of_neg (p := fun m' : Movie => !(m'.id == mid')) (by simp [ha]),
          List.any_cons, h2, ih, Bool.false_or]
    · rw [List.filter_cons_of_pos (p := fun m' : Movie => !(m'.id == mid')) (by simp [ha]),
          List.any_cons, List.any_cons, ih]

lemma same_state_absurd {s : Store} {mid : Nat} {st st' : MState}
    (h : recordState s mid = some st) (h' : recordState s mid = some st')
    (hne : st ≠ st') : False :=
  hne (Option.some.inj (h.symm.trans h'))

lemma stepStore_create_some (s : Store) (u : User) (f : MovieFields)
    (hv : validFields f = true) :
    stepStore s (.createOp (some u) f) =
      { movies := s.movies ++
          [{ id := s.nextMovieId, title := f.title, description := f.description,
             release_date := f.release_date, genre := f.genre, poster := f.poster,
             created_by := .user u.id }],
        nextMovieId := s.nextMovieId + 1 } := by
  unfold stepStore api_create
  simp [hv]

lemma stepStore_update_eq (s : Store) (u : User) (mid : Nat) (f : MovieFields) (m : Movie)
    (hfind : s.movies.find? (fun m' => m'.id == mid) = some m)
    (hown : (m.created_by == Owner.user u.id) = true) (hv : validFields f = true) :
    stepStore s (.updateOp (some u) mid f) =
      { s with movies :=
          s.movies.map (fun m' => if m'.id == mid then applyFields m' f else m') } := by
  unfold stepStore api_update
  simp [hfind, hown, hv]

lemma stepStore_delete_eq (s : Store) (u : User) (mid : Nat) (m : Movie)
    (hfind : s.movies.find? (fun m' => m'.id == mid) = some m)
    (hown : (m.created_by == Owner.user u.id) = true) :
    stepStore s (.deleteConfirmed (some u) mid) =
      { s with movies := s.movies.filter (fun m' => !(m'.id == mid)) } := by
  unfold stepStore api_delete_confirmed
  simp [hfind, hown]

lemma recordState_mk (movies : List Movie) (n mid : Nat) :
    recordState ⟨movies, n⟩ mid =
      if movies.any (fun m' => m'.id == mid) then some .active
      else if mid < n then some .deleted else none := rfl

lemma recordState_lt (s : Store) (mid : Nat) (st : MState) (hwf : StoreWF s)
    (h : recordState s mid = some st) : mid < s.nextMovieId := by
  rw [recordState_def] at h
  cases hany : s.movies.any (fun m' => m'.id == mid) with
  | true =>
    rcases List.any_eq_true.mp hany with ⟨m, hm, hp⟩
    have hid : m.id = mid := by simpa using hp
    exact hid ▸ hwf.2 m hm
  | false =>
    rw [hany, if_neg Bool.false_ne_true] at h
    by_cases hlt : mid < s.nextMovieId
    · exact hlt
    · rw [if_neg hlt] at h
      cases h

lemma recordState_create (s : Store) (u : User) (f : MovieFields) (mid : Nat)
    (hv : validFields f = true) (hlt : mid < s.nextMovieId) :
    recordState (stepStore s (.createOp (some u) f)) mid = recordState s mid := by
  rw [stepStore_create_some s u f hv, recordState_mk, recordState_def, List.any_append]
  cases hany : s.movies.any (fun m' => m'.id == mid) with
  | true => simp
  | false =>
    have hnid : (s.nextMovieId == mid) = false := by
      rw [beq_eq_false_iff_ne]
      omega
    simp [hnid, hlt, Nat.lt_succ_of_lt hlt]

lemma recordState_map_update (s : Store) (mid mid' : Nat) (f : MovieFields) :
    recordState
        { s with movies :=
            s.movies.map (fun m' => if m'.id == mid' then applyFields m' f else m') } mid
      = recordState s mid := by
  rw [recordState_mk, recordState_def, any_id_map_update]

lemma recordState_filter_ne (s : Store) (mid mid' : Nat) (h : mid ≠ mid') :
    recordState
        { s with movies := s.movies.filter (fun m' => !(m'.id == mid')) } mid
      = recordState s mid := by
  rw [recordState_mk, recordState_def, any_id_filter_ne _ _ _ h]

lemma recordState_filter_self (s : Store) (mid' : Nat) (hlt : mid' < s.nextMovieId) :
    recordState
        { s with movies := s.movies.filter (fun m' => !(m'.id == mid')) } mid'
      = some .deleted := by
  rw [recordState_mk, any_id_filter_self]
  simp [hlt]

lemma recordState_active (s : Store) (mid : Nat)
    (hany : s.movies.any (fun m' => m'.id == mid) = true) :
    recordState s mid = some .active := by
  rw [recordState_def, hany]
  simp

lemma api_read_for_edit_owner (s : Store) (u : User) (m : Movie)
    (hwf : StoreWF s) (hm : m ∈ s.movies) (hcb : m.created_by = Owner.user u.id) :
    api_read_for_edit (some u) s m.id = .ok m := by
  unfold api_read_for_edit
  rw [find_by_id_eq s.movies m hwf.1 hm]
  simp [hcb]

/-- C5: each Movie record has exactly the two states Active and
Deleted(terminal); the only state change any operation can cause is
Active → Deleted, and it happens only on the distinct confirmed delete
request by the owner; the unconfirmed delete request (the fetch of the
confirmation page) leaves the store untouched, verified by a subsequent
successful read by the owner. -/
theorem C5_active_deleted_state_machine :
    (∀ (s : Store) (op : Op) (mid : Nat) (st st' : MState), StoreWF s →
      recordState s mid = some st → recordState (stepStore s op) mid = some st' →
      st ≠ st' →
      st = .active ∧ st' = .deleted ∧
      ∃ u : User, op = .deleteConfirmed (some u) mid ∧
        ∃ m ∈ s.movies, m.id = mid ∧ m.created_by = Owner.user u.id) ∧
    (∀ (s : Store) (caller : Option User) (mid : Nat),
      stepStore s (.deleteFetch caller mid) = s) ∧
    (∀ (s : Store) (u : User) (m : Movie), StoreWF s → m ∈ s.movies →
      m.created_by = Owner.user u.id →
      api_read_for_edit (some u) (stepStore s (.deleteFetch (some u) m.id)) m.id
        = .ok m) := by
  refine ⟨?_, fun s caller mid => rfl, fun s u m hwf hm hcb => api_read_for_edit_owner s u m hwf hm hcb⟩
  intro s op mid st st' hwf h h' hne
  cases op with
  | listOp caller => exact (same_state_absurd h h' hne).elim
  | readForEdit caller mid' => exact (same_state_absurd h h' hne).elim
  | deleteFetch caller mid' => exact (same_state_absurd h h' hne).elim
  | createOp caller f =>
    cases caller with
    | none => exact (same_state_absurd h h' hne).elim
    | some u =>
      by_cases hv : validFields f = true
      · have hlt := recordState_lt s mid st hwf h
        rw [recordState_create s u f mid hv hlt] at h'
        exact (same_state_absurd h h' hne).elim
      · have hstep : stepStore s (.createOp (some u) f) = s := by
          unfold stepStore api_create
          simp [hv]
        rw [hstep] at h'
        exact (same_state_absurd h h' hne).elim
  | updateOp caller mid' f =>
    cases caller with
    | none => exact (same_state_absurd h h' hne).elim
    | some u =>
      cases hfind : s.movies.find? (fun m' => m'.id == mid') with
      | none =>
        have hstep : stepStore s (.updateOp (some u) mid' f) = s := by
          unfold stepStore api_update
          simp [hfind]
        rw [hstep] at h'
        exact (same_state_absurd h h' hne).elim
      | some m =>
        by_cases hown : (m.created_by == Owner.user u.id) = true
        · by_cases hvf : validFields f = true
          · rw [stepStore_update_eq s u mid' f m hfind hown hvf,
                recordState_map_update s mid mid' f] at h'
            exact (same_state_absurd h h' hne).elim
          · have hstep : stepStore s (.updateOp (some u) mid' f) = s := by
              unfold stepStore api_update
              simp [hfind, hown, hvf]
            rw [hstep] at h'
            exact (same_state_absurd h h' hne).elim
        · have hstep : stepStore s (.updateOp (some u) mid' f) = s := by
            unfold stepStore api_update
            simp [hfind, hown]
          rw [hstep] at h'
          exact (same_state_absurd h h' hne).elim
  | deleteConfirmed caller mid' =>
    cases caller with
    | none => exact (same_state_absurd h h' hne).elim
    | some u =>
      cases hfind : s.movies.find? (fun m' => m'.id == mid') with
      | none =>
        have hstep : stepStore s (.deleteConfirmed (some u) mid') = s := by
          unfold stepStore api_delete_confirmed
          simp [hfind]
        rw [hstep] at h'
        exact (same_state_absurd h h' hne).elim
      | some m =>
        by_cases hown : (m.created_by == Owner.user u.id) = true
        · rw [stepStore_delete_eq s u mid' m hfind hown] at h'
          by_cases hmid : mid = mid'
          · subst hmid
            have hmem := List.mem_of_find?_eq_some hfind
            have hid : m.id = mid := by simpa using List.find?_some hfind
            have hany : s.movies.any (fun m' => m'.id == mid) = true :=
              List.any_eq_true.mpr ⟨m, hmem, by simpa using hid⟩
            have hst : st = .active := by
              rw [recordState_active s mid hany] at h
              exact (Option.some.inj h).symm
            have hlt : mid < s.nextMovieId := hid ▸ hwf.2 m hmem
            have hst' : st' = .deleted := by
              rw [recordState_filter_self s mid hlt] at h'
              exact (Option.some.inj h').symm
            exact ⟨hst, hst', u, rfl, m, hmem, hid, by simpa using hown⟩
          · rw [recordState_filter_ne s mid mid' hmid] at h'
            exact (same_state_absurd h h' hne).elim
        · have hstep : stepStore s (.deleteConfirmed (some u) mid') = s := by
            unfold stepStore api_delete_confirmed
            simp [hfind, hown]
          rw [hstep] at h'
          exact (same_state_absurd h h' hne).elim

/-- Witness for C5 at a concrete input: alice's confirmed delete of her own
movie moves it from Active to Deleted. -/
theorem C5_active_deleted_state_machine_witness :
    StoreWF ⟨[duneMovie], 6⟩ ∧
    recordState ⟨[duneMovie], 6⟩ 5 = some .active ∧
    recordState (stepStore ⟨[duneMovie], 6⟩ (.deleteConfirmed (some alice) 5)) 5
      = some .deleted ∧
    (MState.active = .active ∧ MState.deleted = .deleted ∧
      ∃ u : User, Op.deleteConfirmed (some alice) 5 = .deleteConfirmed (some u) 5 ∧
        ∃ m ∈ (⟨[duneMovie], 6⟩ : Store).movies, m.id = 5 ∧ m.created_by = Owner.user u.id) :=
  ⟨by constructor <;> decide, by decide, by decide,
   C5_active_deleted_state_machine.1 ⟨[duneMovie], 6⟩ (.deleteConfirmed (some alice) 5) 5
     .active .deleted (by constructor <;> decide) (by decide) (by decide) (by decide)⟩
